import Mathlib

/-!
Verification development for the peewee OpenTelemetry instrumentation
(`opentelemetry/instrumentation/peewee/__init__.py`).

The module wraps three operations of `peewee.Database` — `connect`,
`execute_sql` and `close` — so that each call emits tracing spans and
metrics around the original call.  We embed the wrapper logic shallowly:
the telemetry side effects (span attribute writes, status writes,
histogram records, counter adds, calls to the wrapped originals) become an
explicit event trace, the wrapped original operations become function
parameters, and the wall clock becomes a pair of rational time stamps.
-/

namespace Peewee

/-- Attribute values appearing in telemetry attributes: the code only ever
stores strings and integers (the port number). -/
inductive AVal where
  | s (v : String)
  | n (v : ℤ)
deriving DecidableEq, Repr

/-- Span status codes, as in `opentelemetry.trace.StatusCode`. -/
inductive StatusCode where
  | unset
  | ok
  | error
deriving DecidableEq, Repr

/-- Telemetry attribute sets are insertion-ordered key/value lists, which is
how Python dicts behave. -/
abbrev Attrs := List (String × AVal)

/-- A Python exception value raised by a wrapped original operation.  The
`excId` field models object identity, so that "re-raises the very same
exception" is a statement about more than the message text. -/
structure PyExc where
  msg : String
  excId : ℕ
deriving DecidableEq, Repr

/-- Outcome of calling one of the wrapped original operations. -/
inductive ExecOutcome where
  | ok (res : ℕ)
  | exc (e : PyExc)
deriving DecidableEq, Repr

/-- Overall outcome of a wrapper call: normal return, a re-raised exception
from the original, or an exception raised by the wrapper itself before the
original runs (`ValueError` from vendor normalization, `IndexError` from
operation-name extraction). -/
inductive WOut where
  | ok (res : ℕ)
  | raised (e : PyExc)
  | pyError (name : String)
deriving DecidableEq, Repr

/-- One observable telemetry side effect of a wrapper invocation. -/
inductive Ev where
  | spanStart (name : String)
  | spanEnd
  | isRecordingCheck
  | setAttr (key : String) (v : AVal)
  | setAttrsBulk (kvs : Attrs)
  | setStatus (code : StatusCode) (msg : Option String)
  | recordException (msg : String)
  | histRecord (value : ℤ) (attrs : Attrs)
  | counterAdd (delta : ℤ) (attrs : Attrs)
  | origExecCall (sql : String)
  | origConnectCall (reuseIfOpen : Bool)
  | origCloseCall
deriving DecidableEq, Repr

deriving instance DecidableEq for Except

/-! ### Dictionary helpers (Python dict semantics on assoc lists) -/

/-- `d.get(k)` on an insertion-ordered dict: first entry with the key. -/
def dictLookup (l : List (String × α)) (k : String) : Option α :=
  (l.find? (fun p => p.1 == k)).map Prod.snd

/-- `base.update(**upd)`: existing keys are overwritten in place, new keys
are appended in order. -/
def dictUpdate (base upd : List (String × α)) : List (String × α) :=
  base.map (fun p => (p.1, (dictLookup upd p.1).getD p.2))
    ++ upd.filter (fun p => (dictLookup base p.1).isNone)

/-- `opts.get(k, True)` for the commenter-options mapping. -/
def optsGet (opts : List (String × Bool)) (k : String) : Bool :=
  (dictLookup opts k).getD true

/-! ### Attribute extraction (`_get_attributes_from_connect_params`) -/

def NET_HOST_NAME : String := "net.host.name"
def NET_HOST_PORT : String := "net.host.port"
def DB_USER : String := "db.user"
def DB_STATEMENT : String := "db.statement"
def DB_SYSTEM : String := "db.system"
def DB_NAME : String := "db.name"

/-- The `connect_params` mapping of a database handle, restricted to the
keys the instrumentation reads.  `none` models an absent key. -/
structure ConnectParams where
  host : Option String
  user : Option String
  port : Option ℤ
deriving DecidableEq, Repr

/-- `_get_attributes_from_connect_params(params)`: host and user attributes
when present, port attribute always (defaulting to 3306), and a flag that
is true exactly when `host` was a key of the mapping. -/
def get_attributes_from_connect_params (params : ConnectParams) : Attrs × Bool :=
  let hostAttrs : Attrs := match params.host with
    | some h => [(NET_HOST_NAME, AVal.s h)]
    | none => []
  let userAttrs : Attrs := match params.user with
    | some u => [(DB_USER, AVal.s u)]
    | none => []
  (hostAttrs ++ userAttrs ++ [(NET_HOST_PORT, AVal.n (params.port.getD 3306))],
   params.host.isSome)

/-! ### Operation name (`_get_operation_name`) -/

/-- Scan the characters after a leading `/*`, looking for the first `*/`.
The regex `^/\x2a.*?\x2a/` uses `.`, which does not match a newline, so a
newline before the terminator means the regex does not match at all. -/
def dropBlockComment : List Char → Option (List Char)
  | [] => none
  | '*' :: '/' :: rest => some rest
  | c :: rest => if c = '\n' then none else dropBlockComment rest

/-- `re.compile(r'^/\x2a.*?\x2a/').sub("", sql)`: remove one leading
C-style block comment when the anchored regex matches, otherwise return the
string unchanged. -/
def stripLeadingComment (sql : String) : String :=
  match sql.toList with
  | '/' :: '*' :: rest =>
    match dropBlockComment rest with
    | some rem => String.mk rem
    | none => sql
  | _ => sql

/-- The whitespace class of Python's `str.split()` with no arguments. -/
def isPySpace (c : Char) : Bool :=
  c = ' ' || c = '\t' || c = '\n' || c = '\r' || c = '\x0b' || c = '\x0c'

/-- Worker for `pySplit`: accumulates the current (reversed) token. -/
def pySplitAux : List Char → List Char → List String
  | [], acc => if acc.isEmpty then [] else [String.mk acc.reverse]
  | c :: rest, acc =>
    if isPySpace c then
      if acc.isEmpty then pySplitAux rest []
      else String.mk acc.reverse :: pySplitAux rest []
    else pySplitAux rest (c :: acc)

/-- Python `s.split()`: split on runs of whitespace, no empty tokens. -/
def pySplit (s : String) : List String :=
  pySplitAux s.toList []

/-- The contribution of the database name to the span name: `if db_name:`
is false for `None` and for the empty string. -/
def dbParts (dbName : Option String) : List String :=
  match dbName with
  | some d => if d = "" then [] else [d]
  | none => []

/-- `_get_operation_name(vendor, db_name, sql)`.  `sql = some text` models a
`str` sql, `sql = none` a non-textual one.  When the sql is textual the
code indexes `split()[0]`, which raises `IndexError` when no token remains
after stripping the leading comment; the error carries that name. -/
def get_operation_name (vendor : String) (dbName : Option String)
    (sql : Option String) : Except String String :=
  match sql with
  | some text =>
    match pySplit (stripLeadingComment text) with
    | [] => Except.error "IndexError"
    | tok :: _ => Except.ok (String.intercalate " " (tok :: dbParts dbName))
  | none =>
    match dbParts dbName with
    | [] => Except.ok vendor
    | parts => Except.ok (String.intercalate " " parts)

/-! ### Vendor normalization (`_normalize_vendor`) -/

/-- Substring containment on character lists. -/
def listContains (pat l : List Char) : Bool :=
  l.tails.any (fun t => pat.isPrefixOf t)

/-- `pat in vendor.lower()` for a lowercase pattern: the vendor string is
lowercased character by character (class names are ASCII). -/
def containsLower (vendor pat : String) : Bool :=
  listContains pat.toList (vendor.toList.map Char.toLower)

/-- `_normalize_vendor(vendor)`: substring matching in a fixed order,
first match wins; raises `ValueError` when nothing matches. -/
def normalize_vendor (vendor : String) : Except Unit String :=
  if containsLower vendor "sqlite" then Except.ok "sqlite"
  else if containsLower vendor "mysql" then Except.ok "mysql"
  else if containsLower vendor "postgresql" then Except.ok "postgresql"
  else Except.error ()

/-! ### Commenter data (`_get_commenter_data`) -/

/-- `_get_commenter_data(self, commenter_options)`.  The base dict holds the
driver class name and a `peewee:<version>` framework string; when the
`opentelemetry_values` option is not disabled, the current trace-context
values (supplied here as the `otelValues` parameter, since they come from
the external `_get_opentelemetry_values` collaborator) are merged in; then
every key whose option is `false` is filtered out, keys absent from the
options mapping being kept. -/
def get_commenter_data (className : String) (opts : List (String × Bool))
    (otelValues : List (String × String)) (peeweeVersion : String) :
    List (String × String) :=
  let base : List (String × String) :=
    [("db_driver", className), ("db_framework", "peewee:" ++ peeweeVersion)]
  let withOtel :=
    if optsGet opts "opentelemetry_values" then dictUpdate base otelValues
    else base
  withOtel.filter (fun p => optsGet opts p.1)

/-- Modelled from the spec: the external sqlcommenter utility
`_add_sql_comment` (imported from
`opentelemetry.instrumentation.sqlcommenter_utils`, not part of this
repository) appends a single trailing structured comment
`/\x2a k='v',... \x2a/` to the query text.  Value escaping and the
trailing-semicolon handling of the real utility are irrelevant to the
claims and are not modelled. -/
def add_sql_comment (sql : String) (kvs : List (String × String)) : String :=
  sql ++ " /*" ++
    String.intercalate "," (kvs.map (fun p => p.1 ++ "='" ++ p.2 ++ "'")) ++
    "*/"

/-! ### Rounding (`round` in Python is round-half-to-even) -/

/-- Python's built-in `round` to an integer: round half to even. -/
def pyRound (q : ℚ) : ℤ :=
  let f : ℤ := ⌊q⌋
  let r : ℚ := q - f
  if r < 1/2 then f
  else if 1/2 < r then f + 1
  else if f % 2 = 0 then f else f + 1

/-! ### The execute wrapper (`_wrap_execute_sql`) -/

/-- Commenter configuration of `_wrap_execute_sql`, read by `_instrument`
from its keyword options. -/
structure ExecCfg where
  enableSqlcommenter : Bool
  commenterOptions : List (String × Bool)
  enableAttributeCommenter : Bool
deriving DecidableEq, Repr

/-- Which `peewee` database class the handle is an instance of; used only
by `_get_connection_string`'s `isinstance` checks. -/
inductive DbKind where
  | sqlite
  | mysql
  | postgresql
  | other
deriving DecidableEq, Repr

/-- A `peewee.Database` handle as seen by the wrappers: its class name
(`self.__class__.__name__`), its `database` field (`some text` when it is a
`str`, `none` otherwise), its `connect_params` mapping, and its class for
the `isinstance` checks. -/
structure DbHandle where
  className : String
  database : Option String
  connectParams : ConnectParams
  kind : DbKind
deriving DecidableEq, Repr

/-- `_set_db_client_span_attributes(vendor, span, sql, attrs)` as the event
list it emits: db.statement, db.system, then every derived attribute.  The
recording branch of the wrapper (lines 141–145) emits the same sequence. -/
def set_db_client_span_attributes (vendor sql : String) (attrs : Attrs) :
    List Ev :=
  [Ev.setAttr DB_STATEMENT (AVal.s sql), Ev.setAttr DB_SYSTEM (AVal.s vendor)]
    ++ attrs.map (fun p => Ev.setAttr p.1 p.2)

/-- Events of the wrapper body up to (not including) the `try` block,
together with the sql text that will be passed to the original: the
recording-gated attribute block, then the commenter logic, whose ordering
depends on `enableAttributeCommenter`. -/
def executePre (cfg : ExecCfg) (peeweeVersion : String)
    (otelValues : List (String × String)) (recording : Bool)
    (className sql vendor opName : String) (attrs : Attrs) :
    List Ev × String :=
  let evs0 := [Ev.spanStart opName, Ev.isRecordingCheck]
  let evsRec :=
    if recording then set_db_client_span_attributes vendor sql attrs else []
  if cfg.enableSqlcommenter then
    let cd := get_commenter_data className cfg.commenterOptions otelValues
      peeweeVersion
    if cfg.enableAttributeCommenter then
      let commented := add_sql_comment sql cd
      (evs0 ++ evsRec ++ set_db_client_span_attributes vendor commented attrs,
       commented)
    else
      (evs0 ++ evsRec ++ set_db_client_span_attributes vendor sql attrs,
       add_sql_comment sql cd)
  else (evs0 ++ evsRec, sql)

/-- The `try`/`except`/`finally` block of the wrapper: the recording-gated
OK status, the call to the original, then — on exception — the exception
record and ERROR status; in both cases the `finally` clause records the
duration histogram sample before the `with` block ends the span. -/
def executePost (recording : Bool) (origExecute : String → ExecOutcome)
    (sqlFinal : String) (durVal : ℤ) (durationAttrs : Attrs) :
    List Ev × WOut :=
  let evsStatus := [Ev.isRecordingCheck] ++
    (if recording then [Ev.setStatus StatusCode.ok none] else [])
  match origExecute sqlFinal with
  | ExecOutcome.ok r =>
    (evsStatus ++ [Ev.origExecCall sqlFinal,
      Ev.histRecord durVal durationAttrs, Ev.spanEnd], WOut.ok r)
  | ExecOutcome.exc e =>
    (evsStatus ++ [Ev.origExecCall sqlFinal,
      Ev.recordException e.msg, Ev.setStatus StatusCode.error (some e.msg),
      Ev.histRecord durVal durationAttrs, Ev.spanEnd], WOut.raised e)

/-- The derived attribute dict of the execute wrapper: connect-param
attributes, plus `db.name` appended when the database field is textual. -/
def execAttrs (self : DbHandle) : Attrs :=
  (get_attributes_from_connect_params self.connectParams).1 ++
    (match self.database with
     | some d => [(DB_NAME, AVal.s d)]
     | none => [])

/-- The attributes of the duration-histogram sample, fixed before the
commenter runs: vendor, the caller's sql text, and the host when the
derived attributes contain one. -/
def execDurationAttrs (self : DbHandle) (vendor sql : String) : Attrs :=
  [("db.system.name", AVal.s vendor), ("db.query.text", AVal.s sql)] ++
    (match dictLookup (execAttrs self) NET_HOST_NAME with
     | some v => [("db.server.address", v)]
     | none => [])

/-- The wrapped `execute_sql(self, sql, params, commit)` installed by
`_wrap_execute_sql`, as the event trace it emits plus its outcome.  The
original `peewee.Database.execute_sql` is the `origExecute` parameter (its
outcome may depend on the sql text it receives); `recording` is the value
the span's `is_recording()` returns; `startT`/`finishT` are the two
`default_timer()` readings.  Vendor normalization and operation-name
extraction happen before the span exists, so their exceptions escape with
an empty trace. -/
def execute_sql (cfg : ExecCfg) (peeweeVersion : String)
    (otelValues : List (String × String))
    (origExecute : String → ExecOutcome) (recording : Bool)
    (startT finishT : ℚ) (self : DbHandle) (sql : String) :
    List Ev × WOut :=
  match normalize_vendor self.className with
  | Except.error _ => ([], WOut.pyError "ValueError")
  | Except.ok vendor =>
    match get_operation_name vendor self.database (some sql) with
    | Except.error _ => ([], WOut.pyError "IndexError")
    | Except.ok opName =>
      let pre := executePre cfg peeweeVersion otelValues recording
        self.className sql vendor opName (execAttrs self)
      let durVal : ℤ := max (pyRound ((finishT - startT) * 1000)) 0
      let post := executePost recording origExecute pre.2 durVal
        (execDurationAttrs self vendor sql)
      (pre.1 ++ post.1, post.2)

/-! ### The connect and close wrappers -/

/-- `_get_connection_string(database)`: every `peewee.Database` has a
`connect_params` attribute, so the wrapper always takes the first branch;
Python's f-string renders an absent host or database name as `"None"`. -/
def get_connection_string (self : DbHandle) : String :=
  let driver := match self.kind with
    | DbKind.sqlite => "sqlite"
    | DbKind.mysql => "mysql"
    | DbKind.postgresql => "postgresql"
    | DbKind.other => ""
  driver ++ "://" ++ self.connectParams.host.getD "None" ++ ":" ++
    toString (self.connectParams.port.getD 3306) ++ "/" ++
    self.database.getD "None"

/-- The attributes `_add_used_to_connection_usage` passes to the up/down
counter: the pool identity string plus `state="used"`. -/
def usedAttrs (self : DbHandle) : Attrs :=
  [("pool.name", AVal.s (get_connection_string self)),
   ("state", AVal.s "used")]

/-- The `try` block of the connect wrapper: call the original; on success
add `+1` to the connection-usage counter and return the result; on
exception record it, set ERROR status, and re-raise. -/
def connectTry (pre : List Ev) (origConnect : Bool → ExecOutcome)
    (self : DbHandle) (reuse : Bool) : List Ev × WOut :=
  match origConnect reuse with
  | ExecOutcome.ok r =>
    (pre ++ [Ev.origConnectCall reuse, Ev.counterAdd 1 (usedAttrs self),
      Ev.spanEnd], WOut.ok r)
  | ExecOutcome.exc e =>
    (pre ++ [Ev.origConnectCall reuse, Ev.recordException e.msg,
      Ev.setStatus StatusCode.error (some e.msg), Ev.spanEnd],
     WOut.raised e)

/-- The wrapped `connect(self, reuse_if_open)` installed by `_wrap_connect`.
When recording, the connect-param attributes are set in bulk and then the
db.system attribute; `_normalize_vendor` runs only inside the recording
branch, so an unsupported vendor raises there (after `set_attributes`,
before `set_attribute`). -/
def connect (origConnect : Bool → ExecOutcome) (recording : Bool)
    (self : DbHandle) (reuse : Bool) : List Ev × WOut :=
  let evs0 := [Ev.spanStart "connect", Ev.isRecordingCheck]
  if recording then
    let attrsFound := get_attributes_from_connect_params self.connectParams
    match normalize_vendor self.className with
    | Except.error _ =>
      (evs0 ++ [Ev.setAttrsBulk attrsFound.1, Ev.spanEnd],
       WOut.pyError "ValueError")
    | Except.ok vendor =>
      connectTry (evs0 ++ [Ev.setAttrsBulk attrsFound.1,
        Ev.setAttr DB_SYSTEM (AVal.s vendor)]) origConnect self reuse
  else connectTry evs0 origConnect self reuse

/-- The wrapped `close(self)` installed by `_wrap_close`: call the original
close, then add `-1` to the connection-usage counter.  No span is opened. -/
def close (origClose : Unit → ExecOutcome) (self : DbHandle) :
    List Ev × WOut :=
  match origClose () with
  | ExecOutcome.ok r =>
    ([Ev.origCloseCall, Ev.counterAdd (-1) (usedAttrs self)], WOut.ok r)
  | ExecOutcome.exc e => ([Ev.origCloseCall], WOut.raised e)

/-! ### Instrumentation lifecycle (`PeeweeInstrumentor`) -/

/-- The monkey-patched operation table: the three attributes of
`peewee.Database` the instrumentor replaces.  `α` is the type of the stored
callables. -/
structure OpTable (α : Type) where
  connectOp : α
  executeSqlOp : α
  closeOp : α
deriving DecidableEq, Repr

/-- The process state the instrumentor touches: the shared operation table,
the three saved originals (`none` models an attribute never assigned), and
the `_is_instrumented_by_opentelemetry` flag maintained by the external
`BaseInstrumentor` base class. -/
structure InstrState (α : Type) where
  table : OpTable α
  originalConnect : Option α
  originalExecute : Option α
  originalClose : Option α
  instrumented : Bool
deriving DecidableEq, Repr

/-- `PeeweeInstrumentor._instrument`: save the three current operations,
then install the wrappers.  Each `_wrap_*` factory reads the current value
of its own slot before that slot is reassigned, so each wrapper closes over
the value saved here; the wrapper factories are abstracted as the three
`wrap*` functions. -/
def instrumentRaw (wrapC wrapE wrapCl : α → α) (st : InstrState α) :
    InstrState α :=
  { table := { connectOp := wrapC st.table.connectOp,
               executeSqlOp := wrapE st.table.executeSqlOp,
               closeOp := wrapCl st.table.closeOp },
    originalConnect := some st.table.connectOp,
    originalExecute := some st.table.executeSqlOp,
    originalClose := some st.table.closeOp,
    instrumented := st.instrumented }

/-- Modelled from the spec: the public `instrument` entry point inherited
from the external `BaseInstrumentor` is a guarded no-op when already
instrumented, and otherwise runs `_instrument` and sets the flag. -/
def instrument (wrapC wrapE wrapCl : α → α) (st : InstrState α) :
    InstrState α :=
  if st.instrumented then st
  else { instrumentRaw wrapC wrapE wrapCl st with instrumented := true }

/-- `PeeweeInstrumentor._uninstrument`: restore the three saved originals.
Reading a never-assigned attribute would raise `AttributeError`, which
`none` models. -/
def uninstrumentRaw (st : InstrState α) : Option (InstrState α) :=
  match st.originalConnect, st.originalExecute, st.originalClose with
  | some c, some e, some cl =>
    some { st with table := { connectOp := c, executeSqlOp := e,
                              closeOp := cl } }
  | _, _, _ => none

/-- Modelled from the spec: the public `uninstrument` entry point inherited
from the external `BaseInstrumentor` only warns and returns when the
instrumented flag is unset, and otherwise runs `_uninstrument` and clears
the flag. -/
def uninstrument (st : InstrState α) : Option (InstrState α) :=
  if st.instrumented then
    (uninstrumentRaw st).map (fun s => { s with instrumented := false })
  else some st

/-! ### Observations over event traces -/

/-- Number of duration-histogram samples recorded in a trace. -/
def countHist : List Ev → ℕ
  | [] => 0
  | Ev.histRecord _ _ :: rest => countHist rest + 1
  | _ :: rest => countHist rest

/-- The sql texts passed to the wrapped original execute, in order. -/
def origCallSqls (evs : List Ev) : List String :=
  evs.filterMap (fun e => match e with
    | Ev.origExecCall s => some s
    | _ => none)

/-- The counter mutations of a trace, in order. -/
def counterEvents (evs : List Ev) : List (ℤ × Attrs) :=
  evs.filterMap (fun e => match e with
    | Ev.counterAdd d a => some (d, a)
    | _ => none)

/-- The span names started in a trace, in order. -/
def spanStarts (evs : List Ev) : List String :=
  evs.filterMap (fun e => match e with
    | Ev.spanStart n => some n
    | _ => none)

/-- The value the span attribute `k` holds after the trace ran: the last
`setAttr` for that key (bulk writes are only used for connect-param
attributes, never for the keys we inspect this way).  Later events take
priority. -/
def lastSetAttr : List Ev → String → Option AVal
  | [], _ => none
  | e :: rest, k =>
    match lastSetAttr rest k with
    | some v => some v
    | none =>
      match e with
      | Ev.setAttr key v => if key == k then some v else none
      | _ => none

/-- Span-mutating calls: attribute or status writes on the span. -/
def isSpanWrite : Ev → Bool
  | Ev.setAttr _ _ => true
  | Ev.setAttrsBulk _ => true
  | Ev.setStatus _ _ => true
  | _ => false

/-- The attribute/status writes of a trace. -/
def spanWrites (evs : List Ev) : List Ev :=
  evs.filter isSpanWrite

/-! ### Helper lemmas -/

theorem countHist_append (a b : List Ev) :
    countHist (a ++ b) = countHist a + countHist b := by
  induction a with
  | nil => simp [countHist]
  | cons e rest ih => cases e <;> simp [countHist, ih, Nat.add_right_comm]

theorem countHist_map_setAttr (l : Attrs) :
    countHist (l.map (fun p => Ev.setAttr p.1 p.2)) = 0 := by
  induction l with
  | nil => rfl
  | cons p rest ih => simpa [countHist] using ih

theorem countHist_sdb (v s : String) (a : Attrs) :
    countHist (set_db_client_span_attributes v s a) = 0 := by
  simp [set_db_client_span_attributes, countHist_append, countHist,
    countHist_map_setAttr]

theorem countHist_pre (cfg : ExecCfg) (pv : String)
    (otel : List (String × String)) (recording : Bool)
    (cn sql v opn : String) (attrs : Attrs) :
    countHist (executePre cfg pv otel recording cn sql v opn attrs).1 = 0 := by
  obtain ⟨b1, opts, b2⟩ := cfg
  cases b1 <;> cases b2 <;> cases recording <;>
    simp [executePre, countHist_append, countHist, countHist_sdb,
      countHist_map_setAttr]

theorem countHist_post (recording : Bool) (orig : String → ExecOutcome)
    (sf : String) (dv : ℤ) (da : Attrs) :
    countHist (executePost recording orig sf dv da).1 = 1 := by
  unfold executePost
  cases orig sf <;> cases recording <;>
    simp [countHist_append, countHist]

theorem hist_mem_post {v : ℤ} {a : Attrs} (recording : Bool)
    (orig : String → ExecOutcome) (sf : String) (dv : ℤ) (da : Attrs)
    (h : Ev.histRecord v a ∈ (executePost recording orig sf dv da).1) :
    v = dv ∧ a = da := by
  revert h
  unfold executePost
  cases orig sf <;> cases recording <;> intro h <;> simp_all

theorem hist_not_mem_pre {v : ℤ} {a : Attrs} (cfg : ExecCfg) (pv : String)
    (otel : List (String × String)) (recording : Bool)
    (cn sql vd opn : String) (attrs : Attrs) :
    Ev.histRecord v a ∉ (executePre cfg pv otel recording cn sql vd opn attrs).1 := by
  obtain ⟨b1, opts, b2⟩ := cfg
  cases b1 <;> cases b2 <;> cases recording <;>
    simp [executePre, set_db_client_span_attributes, List.mem_map]

theorem origCall_not_mem_pre {s : String} (cfg : ExecCfg) (pv : String)
    (otel : List (String × String)) (recording : Bool)
    (cn sql vd opn : String) (attrs : Attrs) :
    Ev.origExecCall s ∉ (executePre cfg pv otel recording cn sql vd opn attrs).1 := by
  obtain ⟨b1, opts, b2⟩ := cfg
  cases b1 <;> cases b2 <;> cases recording <;>
    simp [executePre, set_db_client_span_attributes, List.mem_map]

theorem origCall_mem_post {s : String} (recording : Bool)
    (orig : String → ExecOutcome) (sf : String) (dv : ℤ) (da : Attrs)
    (h : Ev.origExecCall s ∈ (executePost recording orig sf dv da).1) :
    s = sf := by
  revert h
  unfold executePost
  cases orig sf <;> cases recording <;> intro h <;> simp_all

theorem post_exc {e : PyExc} (recording : Bool)
    (orig : String → ExecOutcome) (sf : String) (dv : ℤ) (da : Attrs)
    (h : orig sf = ExecOutcome.exc e) :
    (executePost recording orig sf dv da).2 = WOut.raised e
    ∧ Ev.setStatus StatusCode.error (some e.msg)
        ∈ (executePost recording orig sf dv da).1 := by
  unfold executePost
  rw [h]
  cases recording <;> simp

theorem execute_sql_eq (cfg : ExecCfg) (pv : String)
    (otel : List (String × String)) (orig : String → ExecOutcome)
    (recording : Bool) (t0 t1 : ℚ) (self : DbHandle) (sql : String)
    {vend opn : String}
    (hv : normalize_vendor self.className = Except.ok vend)
    (hop : get_operation_name vend self.database (some sql) = Except.ok opn) :
    execute_sql cfg pv otel orig recording t0 t1 self sql =
      ((executePre cfg pv otel recording self.className sql vend opn
          (execAttrs self)).1 ++
        (executePost recording orig
          (executePre cfg pv otel recording self.className sql vend opn
            (execAttrs self)).2
          (max (pyRound ((t1 - t0) * 1000)) 0)
          (execDurationAttrs self vend sql)).1,
       (executePost recording orig
          (executePre cfg pv otel recording self.className sql vend opn
            (execAttrs self)).2
          (max (pyRound ((t1 - t0) * 1000)) 0)
          (execDurationAttrs self vend sql)).2) := by
  unfold execute_sql
  rw [hv]
  dsimp only
  rw [hop]

/-! ### Claim theorems -/

/-- **C6.**  Vendor classification returns `"sqlite"`, `"mysql"` or
`"postgresql"` exactly when the class-name string contains that substring
case-insensitively, checked in the fixed order sqlite, mysql, postgresql
with the first match winning; and it fails with a `ValueError`
(the `UnsupportedVendor` hard failure) exactly when no substring
matches. -/
theorem normalize_vendor_classification (s : String) :
    (normalize_vendor s = Except.ok "sqlite" ↔ containsLower s "sqlite" = true)
    ∧ (normalize_vendor s = Except.ok "mysql" ↔
        (containsLower s "sqlite" = false ∧ containsLower s "mysql" = true))
    ∧ (normalize_vendor s = Except.ok "postgresql" ↔
        (containsLower s "sqlite" = false ∧ containsLower s "mysql" = false
          ∧ containsLower s "postgresql" = true))
    ∧ (normalize_vendor s = Except.error () ↔
        (containsLower s "sqlite" = false ∧ containsLower s "mysql" = false
          ∧ containsLower s "postgresql" = false)) := by
  cases h1 : containsLower s "sqlite" <;>
    cases h2 : containsLower s "mysql" <;>
      cases h3 : containsLower s "postgresql" <;>
        simp [normalize_vendor, h1, h2, h3]

/-- **C7.**  Attribute extraction from connect params sets the
network-host-name attribute iff `host` is a key, the db-user attribute iff
`user` is a key, always sets the network-host-port attribute (3306 when
`port` is absent, regardless of vendor), and returns a flag true iff
`host` was present. -/
theorem connect_params_attribute_extraction (params : ConnectParams) :
    dictLookup (get_attributes_from_connect_params params).1 NET_HOST_NAME
        = params.host.map AVal.s
    ∧ dictLookup (get_attributes_from_connect_params params).1 DB_USER
        = params.user.map AVal.s
    ∧ dictLookup (get_attributes_from_connect_params params).1 NET_HOST_PORT
        = some (AVal.n (params.port.getD 3306))
    ∧ (get_attributes_from_connect_params params).2 = params.host.isSome := by
  obtain ⟨h, u, p⟩ := params
  cases h <;> cases u <;>
    simp [get_attributes_from_connect_params, dictLookup, List.find?,
      NET_HOST_NAME, NET_HOST_PORT, DB_USER]

/-- **C1.**  For every execute call that reaches the wrapped original (the
vendor normalizes and the span name extraction succeeds, which happen
before the span exists), the wrapper records exactly one sample into the
duration histogram — the elapsed wall time in milliseconds, rounded and
clamped to be non-negative — regardless of whether the original returns
normally or raises; and when the original raises, the wrapper sets the span
status to ERROR with the exception's message and re-raises the very same
exception unmodified. -/
theorem execute_sql_one_sample_and_reraise (cfg : ExecCfg) (pv : String)
    (otel : List (String × String)) (orig : String → ExecOutcome)
    (recording : Bool) (t0 t1 : ℚ) (self : DbHandle) (sql : String)
    (vend opn : String)
    (hv : normalize_vendor self.className = Except.ok vend)
    (hop : get_operation_name vend self.database (some sql) = Except.ok opn) :
    countHist (execute_sql cfg pv otel orig recording t0 t1 self sql).1 = 1
    ∧ (∀ v a, Ev.histRecord v a
          ∈ (execute_sql cfg pv otel orig recording t0 t1 self sql).1 →
        v = max (pyRound ((t1 - t0) * 1000)) 0 ∧ 0 ≤ v)
    ∧ (∀ s e, Ev.origExecCall s
          ∈ (execute_sql cfg pv otel orig recording t0 t1 self sql).1 →
        orig s = ExecOutcome.exc e →
        (execute_sql cfg pv otel orig recording t0 t1 self sql).2
            = WOut.raised e
        ∧ Ev.setStatus StatusCode.error (some e.msg)
            ∈ (execute_sql cfg pv otel orig recording t0 t1 self sql).1) := by
  rw [execute_sql_eq cfg pv otel orig recording t0 t1 self sql hv hop]
  refine ⟨?_, ?_, ?_⟩
  · simp [countHist_append, countHist_pre, countHist_post]
  · intro v a hmem
    rcases List.mem_append.mp hmem with hpre | hpost
    · exact absurd hpre (hist_not_mem_pre _ _ _ _ _ _ _ _ _)
    · obtain ⟨hval, -⟩ := hist_mem_post _ _ _ _ _ hpost
      exact ⟨hval, hval ▸ le_max_right _ 0⟩
  · intro s e hmem hexc
    rcases List.mem_append.mp hmem with hpre | hpost
    · exact absurd hpre (origCall_not_mem_pre _ _ _ _ _ _ _ _ _)
    · have hs := origCall_mem_post _ _ _ _ _ hpost
      subst hs
      obtain ⟨hout, hstat⟩ := post_exc recording orig _ _ _ hexc
      exact ⟨hout, List.mem_append.mpr (Or.inr hstat)⟩

/-- Witness for C1 at a concrete input: a sqlite handle whose original
execute raises; exactly one histogram sample is recorded. -/
theorem execute_sql_one_sample_and_reraise_witness :
    countHist (execute_sql ⟨false, [], false⟩ "3.17.0" []
      (fun _ => ExecOutcome.exc ⟨"boom", 7⟩) true 0 (1/2)
      ⟨"SqliteDatabase", some ":memory:", ⟨none, none, none⟩, DbKind.sqlite⟩
      "SELECT 1").1 = 1 :=
  (execute_sql_one_sample_and_reraise ⟨false, [], false⟩ "3.17.0" []
    (fun _ => ExecOutcome.exc ⟨"boom", 7⟩) true 0 (1/2)
    ⟨"SqliteDatabase", some ":memory:", ⟨none, none, none⟩, DbKind.sqlite⟩
    "SELECT 1" "sqlite" "SELECT :memory:" (by decide) (by decide)).1

/-- **C5, counterexample.**  The claim says that when neither a token nor a
database name exists, `_get_operation_name` returns the vendor tag alone;
but for a textual sql with no token (for example the empty string) the code
indexes `split()[0]` and raises `IndexError` instead. -/
theorem operation_name_counterexample :
    get_operation_name "sqlite" (some "") (some "")
        = Except.error "IndexError"
    ∧ get_operation_name "sqlite" (some "") (some "")
        ≠ Except.ok "sqlite" := by
  constructor
  · rfl
  · intro h
    rw [show get_operation_name "sqlite" (some "") (some "")
        = Except.error "IndexError" from rfl] at h
    exact Except.noConfusion h

/-- **C5, amended.**  For every vendor tag, database name and SQL input:
when the SQL is textual and a whitespace-delimited token remains after
stripping a leading C-style block comment, the result is that token
followed by the database name if non-empty, joined with a single space;
when the SQL is textual but no token remains, the call raises `IndexError`
(instead of the vendor fallback the claim states); the vendor-tag fallback
applies only when the SQL is not textual and the database name is empty. -/
theorem operation_name_amended (vendor : String) (dbName : Option String)
    (s : String) :
    (pySplit (stripLeadingComment s) = [] →
      get_operation_name vendor dbName (some s) = Except.error "IndexError")
    ∧ (∀ tok rest, pySplit (stripLeadingComment s) = tok :: rest →
      get_operation_name vendor dbName (some s)
          = Except.ok (String.intercalate " " (tok :: dbParts dbName)))
    ∧ get_operation_name vendor dbName none
        = (match dbParts dbName with
           | [] => Except.ok vendor
           | parts => Except.ok (String.intercalate " " parts)) := by
  refine ⟨?_, ?_, rfl⟩
  · intro h
    simp [get_operation_name, h]
  · intro tok rest h
    simp [get_operation_name, h]

/-- Witness for C5 (amended) at a concrete input: a sql text with a leading
block comment yields its first token joined with the database name. -/
theorem operation_name_amended_witness :
    get_operation_name "sqlite" (some "db") (some "/* hint */ SELECT 1")
        = Except.ok "SELECT db" :=
  (operation_name_amended "sqlite" (some "db") "/* hint */ SELECT 1").2.1
    "SELECT" ["1"] rfl

/-- **C3.**  Calling `instrument` and then `uninstrument` restores the three
operations `connect`, `execute_sql` and `close` of `peewee.Database` to
exactly the values they had before `instrument` (the operation table is
unchanged by the round trip), and calling `uninstrument` without a prior
`instrument` does not raise (`some` result) and leaves the operation table
exactly as it was. -/
theorem instrument_uninstrument_roundtrip {α : Type}
    (wrapC wrapE wrapCl : α → α) (st : InstrState α)
    (h : st.instrumented = false) :
    (uninstrument (instrument wrapC wrapE wrapCl st)).map InstrState.table
        = some st.table
    ∧ uninstrument st = some st := by
  constructor
  · simp [instrument, uninstrument, instrumentRaw, uninstrumentRaw, h]
  · simp [uninstrument, h]

/-- Witness for C3 at a concrete operation table over `ℕ`. -/
theorem instrument_uninstrument_roundtrip_witness :
    (uninstrument (instrument Nat.succ Nat.succ Nat.succ
        (⟨⟨1, 2, 3⟩, none, none, none, false⟩ : InstrState ℕ))).map
        InstrState.table = some ⟨1, 2, 3⟩
    ∧ uninstrument (⟨⟨1, 2, 3⟩, none, none, none, false⟩ : InstrState ℕ)
        = some ⟨⟨1, 2, 3⟩, none, none, none, false⟩ :=
  instrument_uninstrument_roundtrip Nat.succ Nat.succ Nat.succ
    ⟨⟨1, 2, 3⟩, none, none, none, false⟩ rfl

theorem lastSetAttr_append (a b : List Ev) (k : String) :
    lastSetAttr (a ++ b) k =
      match lastSetAttr b k with
      | some v => some v
      | none => lastSetAttr a k := by
  induction a with
  | nil => cases h : lastSetAttr b k <;> simp [lastSetAttr, h]
  | cons x a ih =>
    simp only [List.cons_append, lastSetAttr, List.append_eq]
    rw [ih]
    cases h : lastSetAttr b k <;> simp

theorem lastSetAttr_map_none (attrs : Attrs) (k : String)
    (h : ∀ p ∈ attrs, (p.1 == k) = false) :
    lastSetAttr (attrs.map (fun p => Ev.setAttr p.1 p.2)) k = none := by
  induction attrs with
  | nil => rfl
  | cons q rest ih =>
    have hq := h q (List.mem_cons_self q rest)
    have hrest := ih (fun p hp => h p (List.mem_cons_of_mem q hp))
    simp [lastSetAttr, hrest, hq]

theorem lastSetAttr_sdb (v s : String) (attrs : Attrs)
    (h : ∀ p ∈ attrs, (p.1 == DB_STATEMENT) = false) :
    lastSetAttr (set_db_client_span_attributes v s attrs) DB_STATEMENT
        = some (AVal.s s) := by
  unfold set_db_client_span_attributes
  rw [lastSetAttr_append, lastSetAttr_map_none attrs DB_STATEMENT h]
  simp [lastSetAttr, DB_SYSTEM, DB_STATEMENT]

theorem lastSetAttr_post (recording : Bool) (orig : String → ExecOutcome)
    (sf : String) (dv : ℤ) (da : Attrs) (k : String) :
    lastSetAttr (executePost recording orig sf dv da).1 k = none := by
  unfold executePost
  cases orig sf <;> cases recording <;> simp [lastSetAttr]

theorem execAttrs_no_statement (self : DbHandle) :
    ∀ p ∈ execAttrs self, (p.1 == DB_STATEMENT) = false := by
  obtain ⟨cn, db, ⟨h, u, pt⟩, kind⟩ := self
  cases h <;> cases u <;> cases db <;>
    simp [execAttrs, get_attributes_from_connect_params,
      NET_HOST_NAME, NET_HOST_PORT, DB_USER, DB_NAME, DB_STATEMENT]

theorem executePre_fst (cfg : ExecCfg) (pv : String)
    (otel : List (String × String)) (recording : Bool)
    (cn sql vd opn : String) (attrs : Attrs) :
    (executePre cfg pv otel recording cn sql vd opn attrs).1 =
      [Ev.spanStart opn, Ev.isRecordingCheck]
      ++ (if recording then set_db_client_span_attributes vd sql attrs
          else [])
      ++ (if cfg.enableSqlcommenter then
            set_db_client_span_attributes vd
              (if cfg.enableAttributeCommenter then
                add_sql_comment sql
                  (get_commenter_data cn cfg.commenterOptions otel pv)
              else sql) attrs
          else []) := by
  obtain ⟨b1, opts, b2⟩ := cfg
  cases b1 <;> cases b2 <;> cases recording <;> simp [executePre]

theorem lastSetAttr_pre (cfg : ExecCfg) (pv : String)
    (otel : List (String × String)) (recording : Bool)
    (cn sql vd opn : String) (self : DbHandle)
    (hcomm : cfg.enableSqlcommenter = true) :
    lastSetAttr
        (executePre cfg pv otel recording cn sql vd opn (execAttrs self)).1
        DB_STATEMENT =
      some (AVal.s (if cfg.enableAttributeCommenter then
        add_sql_comment sql (get_commenter_data cn cfg.commenterOptions otel pv)
      else sql)) := by
  rw [executePre_fst, lastSetAttr_append]
  simp only [hcomm, if_true]
  rw [lastSetAttr_sdb _ _ _ (execAttrs_no_statement self)]

theorem executePre_snd (cfg : ExecCfg) (pv : String)
    (otel : List (String × String)) (recording : Bool)
    (cn sql vd opn : String) (attrs : Attrs) :
    (executePre cfg pv otel recording cn sql vd opn attrs).2 =
      (if cfg.enableSqlcommenter then
        add_sql_comment sql (get_commenter_data cn cfg.commenterOptions otel pv)
      else sql) := by
  obtain ⟨b1, opts, b2⟩ := cfg
  cases b1 <;> cases b2 <;> simp [executePre]

theorem origCallSqls_pre (cfg : ExecCfg) (pv : String)
    (otel : List (String × String)) (recording : Bool)
    (cn sql vd opn : String) (attrs : Attrs) :
    origCallSqls (executePre cfg pv otel recording cn sql vd opn attrs).1
        = [] := by
  obtain ⟨b1, opts, b2⟩ := cfg
  cases b1 <;> cases b2 <;> cases recording <;>
    simp [executePre, origCallSqls, set_db_client_span_attributes,
      List.filterMap_append, List.filterMap_cons]

theorem origCallSqls_post (recording : Bool) (orig : String → ExecOutcome)
    (sf : String) (dv : ℤ) (da : Attrs) :
    origCallSqls (executePost recording orig sf dv da).1 = [sf] := by
  unfold executePost
  cases orig sf <;> cases recording <;> simp [origCallSqls]

theorem origCallSqls_append (a b : List Ev) :
    origCallSqls (a ++ b) = origCallSqls a ++ origCallSqls b := by
  simp [origCallSqls]

theorem execAttrs_host (self : DbHandle) :
    dictLookup (execAttrs self) NET_HOST_NAME
      = self.connectParams.host.map AVal.s := by
  obtain ⟨cn, db, ⟨h, u, pt⟩, kind⟩ := self
  cases h <;> cases u <;> cases db <;>
    simp [execAttrs, get_attributes_from_connect_params, dictLookup,
      List.find?, NET_HOST_NAME, NET_HOST_PORT, DB_USER, DB_NAME]

theorem execDurationAttrs_query (self : DbHandle) (vend sql : String) :
    dictLookup (execDurationAttrs self vend sql) "db.query.text"
      = some (AVal.s sql) := by
  unfold execDurationAttrs
  cases h : dictLookup (execAttrs self) NET_HOST_NAME <;>
    simp [dictLookup, List.find?]

theorem execDurationAttrs_server (self : DbHandle) (vend sql : String) :
    (dictLookup (execDurationAttrs self vend sql) "db.server.address").isSome
      = self.connectParams.host.isSome := by
  unfold execDurationAttrs
  rw [execAttrs_host]
  cases h : self.connectParams.host <;> simp [dictLookup, List.find?]

/-- **C2.**  With SQL-comment injection enabled: when the
attribute-commenter flag is true, the db.statement span attribute ends up
holding the commented text and the commented text is what is passed to the
original execute; when the flag is false, the db.statement span attribute
holds the original caller-supplied SQL while the text passed to the
original execute carries the appended comment. -/
theorem commenter_ordering (cfg : ExecCfg) (pv : String)
    (otel : List (String × String)) (orig : String → ExecOutcome)
    (recording : Bool) (t0 t1 : ℚ) (self : DbHandle) (sql : String)
    (vend opn : String)
    (hv : normalize_vendor self.className = Except.ok vend)
    (hop : get_operation_name vend self.database (some sql) = Except.ok opn)
    (hcomm : cfg.enableSqlcommenter = true) :
    (cfg.enableAttributeCommenter = true →
      lastSetAttr (execute_sql cfg pv otel orig recording t0 t1 self sql).1
          DB_STATEMENT
        = some (AVal.s (add_sql_comment sql
            (get_commenter_data self.className cfg.commenterOptions otel pv)))
      ∧ origCallSqls (execute_sql cfg pv otel orig recording t0 t1 self sql).1
        = [add_sql_comment sql
            (get_commenter_data self.className cfg.commenterOptions otel pv)])
    ∧ (cfg.enableAttributeCommenter = false →
      lastSetAttr (execute_sql cfg pv otel orig recording t0 t1 self sql).1
          DB_STATEMENT = some (AVal.s sql)
      ∧ origCallSqls (execute_sql cfg pv otel orig recording t0 t1 self sql).1
        = [add_sql_comment sql
            (get_commenter_data self.className cfg.commenterOptions otel pv)]) := by
  rw [execute_sql_eq cfg pv otel orig recording t0 t1 self sql hv hop]
  dsimp only
  have hlast :
      lastSetAttr
        ((executePre cfg pv otel recording self.className sql vend opn
            (execAttrs self)).1 ++
          (executePost recording orig
            (executePre cfg pv otel recording self.className sql vend opn
              (execAttrs self)).2
            (max (pyRound ((t1 - t0) * 1000)) 0)
            (execDurationAttrs self vend sql)).1) DB_STATEMENT
        = some (AVal.s (if cfg.enableAttributeCommenter then
            add_sql_comment sql
              (get_commenter_data self.className cfg.commenterOptions otel pv)
          else sql)) := by
    rw [lastSetAttr_append, lastSetAttr_post]
    rw [lastSetAttr_pre cfg pv otel recording self.className sql vend opn
      self hcomm]
  have hsqls :
      origCallSqls
        ((executePre cfg pv otel recording self.className sql vend opn
            (execAttrs self)).1 ++
          (executePost recording orig
            (executePre cfg pv otel recording self.className sql vend opn
              (execAttrs self)).2
            (max (pyRound ((t1 - t0) * 1000)) 0)
            (execDurationAttrs self vend sql)).1)
        = [add_sql_comment sql
            (get_commenter_data self.className cfg.commenterOptions otel pv)] := by
    rw [origCallSqls_append, origCallSqls_pre, origCallSqls_post,
      executePre_snd]
    simp [hcomm]
  constructor
  · intro hb2
    rw [hb2] at hlast
    exact ⟨by simpa using hlast, hsqls⟩
  · intro hb2
    rw [hb2] at hlast
    exact ⟨by simpa using hlast, hsqls⟩

/-- Witness for C2 at a concrete input with the attribute-commenter flag
off: db.statement holds the plain text, the original receives the
commented text. -/
theorem commenter_ordering_witness :
    lastSetAttr (execute_sql ⟨true, [], false⟩ "3.17.0" []
        (fun _ => ExecOutcome.ok 0) true 0 0
        ⟨"SqliteDatabase", some ":memory:", ⟨none, none, none⟩,
          DbKind.sqlite⟩ "SELECT 1").1 DB_STATEMENT
      = some (AVal.s "SELECT 1")
    ∧ origCallSqls (execute_sql ⟨true, [], false⟩ "3.17.0" []
        (fun _ => ExecOutcome.ok 0) true 0 0
        ⟨"SqliteDatabase", some ":memory:", ⟨none, none, none⟩,
          DbKind.sqlite⟩ "SELECT 1").1
      = [add_sql_comment "SELECT 1"
          (get_commenter_data "SqliteDatabase" [] [] "3.17.0")] :=
  (commenter_ordering ⟨true, [], false⟩ "3.17.0" []
    (fun _ => ExecOutcome.ok 0) true 0 0
    ⟨"SqliteDatabase", some ":memory:", ⟨none, none, none⟩, DbKind.sqlite⟩
    "SELECT 1" "sqlite" "SELECT :memory:" (by decide) (by decide) rfl).2 rfl

/-- **C4, counterexample.**  The claim states that a non-recording span
receives no attribute-setting calls under every configuration including
comment injection enabled; but with the commenter enabled the wrapper calls
`_set_db_client_span_attributes` unconditionally, so a non-recording span
(recording argument `false`) still receives a `set_attribute` call for
db.statement. -/
theorem recording_short_circuit_counterexample :
    Ev.setAttr DB_STATEMENT (AVal.s "SELECT 1") ∈
      (execute_sql ⟨true, [], false⟩ "3.17.0" [] (fun _ => ExecOutcome.ok 0)
        false 0 0
        ⟨"SqliteDatabase", some ":memory:", ⟨none, none, none⟩,
          DbKind.sqlite⟩ "SELECT 1").1 := by
  decide

/-- **C4, amended.**  For every wrapped connect and execute call whose span
is not in recording mode, provided SQL-comment injection is disabled and
the original call returns normally, no attribute-setting or status-setting
call is made on that span, while `is_recording` is still consulted.  (With
comment injection enabled the db.statement/db.system attributes are written
unconditionally, and when the original raises the ERROR status is set
regardless of recording mode, so those cases are excluded.) -/
theorem recording_short_circuit_amended (cfg : ExecCfg) (pv : String)
    (otel : List (String × String)) (origE : String → ExecOutcome)
    (origC : Bool → ExecOutcome) (recording : Bool) (t0 t1 : ℚ)
    (self : DbHandle) (sql : String) (reuse : Bool) (vend opn : String)
    (r r2 : ℕ)
    (hrec : recording = false)
    (hcomm : cfg.enableSqlcommenter = false)
    (hv : normalize_vendor self.className = Except.ok vend)
    (hop : get_operation_name vend self.database (some sql) = Except.ok opn)
    (hx : origE sql = ExecOutcome.ok r)
    (hc : origC reuse = ExecOutcome.ok r2) :
    spanWrites (execute_sql cfg pv otel origE recording t0 t1 self sql).1 = []
    ∧ Ev.isRecordingCheck
        ∈ (execute_sql cfg pv otel origE recording t0 t1 self sql).1
    ∧ spanWrites (connect origC recording self reuse).1 = []
    ∧ Ev.isRecordingCheck ∈ (connect origC recording self reuse).1 := by
  subst hrec
  rw [execute_sql_eq cfg pv otel origE false t0 t1 self sql hv hop]
  dsimp only
  rw [executePre_fst, executePre_snd]
  refine ⟨?_, ?_, ?_, ?_⟩
  · simp [hcomm, executePost, hx, spanWrites, isSpanWrite]
  · simp [hcomm, executePost, hx]
  · simp [connect, connectTry, hc, spanWrites, isSpanWrite]
  · simp [connect, connectTry, hc]

/-- Witness for C4 (amended) at a concrete non-recording input with the
commenter disabled and a successful original. -/
theorem recording_short_circuit_amended_witness :
    spanWrites (execute_sql ⟨false, [], false⟩ "3.17.0" []
        (fun _ => ExecOutcome.ok 0) false 0 0
        ⟨"SqliteDatabase", some ":memory:", ⟨none, none, none⟩,
          DbKind.sqlite⟩ "SELECT 1").1 = []
    ∧ Ev.isRecordingCheck ∈ (execute_sql ⟨false, [], false⟩ "3.17.0" []
        (fun _ => ExecOutcome.ok 0) false 0 0
        ⟨"SqliteDatabase", some ":memory:", ⟨none, none, none⟩,
          DbKind.sqlite⟩ "SELECT 1").1
    ∧ spanWrites (connect (fun _ => ExecOutcome.ok 1) false
        ⟨"SqliteDatabase", some ":memory:", ⟨none, none, none⟩,
          DbKind.sqlite⟩ false).1 = []
    ∧ Ev.isRecordingCheck ∈ (connect (fun _ => ExecOutcome.ok 1) false
        ⟨"SqliteDatabase", some ":memory:", ⟨none, none, none⟩,
          DbKind.sqlite⟩ false).1 :=
  recording_short_circuit_amended ⟨false, [], false⟩ "3.17.0" []
    (fun _ => ExecOutcome.ok 0) (fun _ => ExecOutcome.ok 1) false 0 0
    ⟨"SqliteDatabase", some ":memory:", ⟨none, none, none⟩, DbKind.sqlite⟩
    "SELECT 1" false "sqlite" "SELECT :memory:" 0 1 rfl rfl
    (by decide) (by decide) rfl rfl

/-- **C8.**  The wrapped connect increments the connection-usage counter by
one with pool-name and state `"used"` exactly when the original connect
returns without raising (never on exception), and returns the original's
result; the wrapped close invokes the original close and then decrements
the same counter by one with the same attributes, and opens no span. -/
theorem connect_close_counter (origC : Bool → ExecOutcome)
    (origCl : Unit → ExecOutcome) (recording : Bool) (self : DbHandle)
    (reuse : Bool) (vend : String)
    (hv : normalize_vendor self.className = Except.ok vend) :
    (∀ r, origC reuse = ExecOutcome.ok r →
      counterEvents (connect origC recording self reuse).1
          = [(1, usedAttrs self)]
      ∧ (connect origC recording self reuse).2 = WOut.ok r)
    ∧ (∀ e, origC reuse = ExecOutcome.exc e →
      counterEvents (connect origC recording self reuse).1 = []
      ∧ (connect origC recording self reuse).2 = WOut.raised e)
    ∧ (∀ r, origCl () = ExecOutcome.ok r →
      (close origCl self).1
          = [Ev.origCloseCall, Ev.counterAdd (-1) (usedAttrs self)]
      ∧ (close origCl self).2 = WOut.ok r)
    ∧ spanStarts (close origCl self).1 = [] := by
  refine ⟨?_, ?_, ?_, ?_⟩
  · intro r h
    cases recording <;> simp [connect, connectTry, hv, h, counterEvents]
  · intro e h
    cases recording <;> simp [connect, connectTry, hv, h, counterEvents]
  · intro r h
    simp [close, h]
  · cases h : origCl () <;> simp [close, h, spanStarts]

/-- Witness for C8 at a concrete input whose original connect succeeds. -/
theorem connect_close_counter_witness :
    counterEvents (connect (fun _ => ExecOutcome.ok 5) true
        ⟨"SqliteDatabase", some ":memory:", ⟨none, none, none⟩,
          DbKind.sqlite⟩ false).1
      = [(1, usedAttrs ⟨"SqliteDatabase", some ":memory:",
          ⟨none, none, none⟩, DbKind.sqlite⟩)]
    ∧ (connect (fun _ => ExecOutcome.ok 5) true
        ⟨"SqliteDatabase", some ":memory:", ⟨none, none, none⟩,
          DbKind.sqlite⟩ false).2 = WOut.ok 5 :=
  (connect_close_counter (fun _ => ExecOutcome.ok 5)
    (fun _ => ExecOutcome.ok 0) true
    ⟨"SqliteDatabase", some ":memory:", ⟨none, none, none⟩, DbKind.sqlite⟩
    false "sqlite" (by decide)).1 5 rfl

/-- **C10.**  The duration-histogram attributes are fixed before any
comment injection: for every recorded sample, db.query.text is the
caller's original SQL text (even when the commenter is enabled), and
db.server.address is present iff `host` is present in the handle's connect
parameters. -/
theorem histogram_attrs_fixed (cfg : ExecCfg) (pv : String)
    (otel : List (String × String)) (orig : String → ExecOutcome)
    (recording : Bool) (t0 t1 : ℚ) (self : DbHandle) (sql : String)
    (vend opn : String)
    (hv : normalize_vendor self.className = Except.ok vend)
    (hop : get_operation_name vend self.database (some sql) = Except.ok opn) :
    ∀ v a, Ev.histRecord v a
        ∈ (execute_sql cfg pv otel orig recording t0 t1 self sql).1 →
      dictLookup a "db.query.text" = some (AVal.s sql)
      ∧ (dictLookup a "db.server.address").isSome
          = self.connectParams.host.isSome := by
  intro v a hmem
  rw [execute_sql_eq cfg pv otel orig recording t0 t1 self sql hv hop]
    at hmem
  dsimp only at hmem
  rcases List.mem_append.mp hmem with hpre | hpost
  · exact absurd hpre (hist_not_mem_pre _ _ _ _ _ _ _ _ _)
  · obtain ⟨-, hattrs⟩ := hist_mem_post _ _ _ _ _ hpost
    subst hattrs
    exact ⟨execDurationAttrs_query self vend sql,
      execDurationAttrs_server self vend sql⟩

/-- Witness for C10: the histogram sample recorded with the commenter
enabled still carries the caller's plain SQL text and no server address
for a host-less sqlite handle. -/
theorem histogram_attrs_fixed_witness :
    dictLookup (execDurationAttrs
        ⟨"SqliteDatabase", some ":memory:", ⟨none, none, none⟩,
          DbKind.sqlite⟩ "sqlite" "SELECT 1") "db.query.text"
      = some (AVal.s "SELECT 1")
    ∧ (dictLookup (execDurationAttrs
        ⟨"SqliteDatabase", some ":memory:", ⟨none, none, none⟩,
          DbKind.sqlite⟩ "sqlite" "SELECT 1") "db.server.address").isSome
      = ((⟨"SqliteDatabase", some ":memory:", ⟨none, none, none⟩,
          DbKind.sqlite⟩ : DbHandle)).connectParams.host.isSome :=
  histogram_attrs_fixed ⟨true, [], false⟩ "3.17.0" []
    (fun _ => ExecOutcome.ok 0) true 0 0
    ⟨"SqliteDatabase", some ":memory:", ⟨none, none, none⟩, DbKind.sqlite⟩
    "SELECT 1" "sqlite" "SELECT :memory:" (by decide) (by decide)
    (max (pyRound ((0 - 0) * 1000)) 0)
    (execDurationAttrs
      ⟨"SqliteDatabase", some ":memory:", ⟨none, none, none⟩,
        DbKind.sqlite⟩ "sqlite" "SELECT 1")
    (by
      rw [@execute_sql_eq ⟨true, [], false⟩ "3.17.0" []
        (fun _ => ExecOutcome.ok 0) true 0 0
        ⟨"SqliteDatabase", some ":memory:", ⟨none, none, none⟩,
          DbKind.sqlite⟩ "SELECT 1" "sqlite" "SELECT :memory:"
        (by decide) (by decide)]
      refine List.mem_append.mpr (Or.inr ?_)
      simp [executePost])

theorem dictLookup_isSome {α : Type} (l : List (String × α)) (k : String) :
    (dictLookup l k).isSome = true ↔ ∃ x ∈ l, x.1 = k := by
  simp [dictLookup, List.find?_isSome]

/-- **C9.**  With comment injection disabled (the default), the SQL text
passed to the original execute is exactly the caller-supplied text; and the
commenter-data mapping contains a key exactly when it is one of the base
keys (`db_driver`, `db_framework`) or — when the `opentelemetry_values`
option is not disabled — a trace-context key, and its commenter-options
entry is not `false` (absent keys are included by default). -/
theorem commenter_keys_and_passthrough (cfg : ExecCfg) (pv : String)
    (otel : List (String × String)) (orig : String → ExecOutcome)
    (recording : Bool) (t0 t1 : ℚ) (self : DbHandle) (sql : String)
    (vend opn : String)
    (hv : normalize_vendor self.className = Except.ok vend)
    (hop : get_operation_name vend self.database (some sql) = Except.ok opn) :
    (cfg.enableSqlcommenter = false →
      origCallSqls (execute_sql cfg pv otel orig recording t0 t1 self sql).1
        = [sql])
    ∧ (∀ k, (dictLookup (get_commenter_data self.className
          cfg.commenterOptions otel pv) k).isSome = true ↔
        ((k = "db_driver" ∨ k = "db_framework"
          ∨ (optsGet cfg.commenterOptions "opentelemetry_values" = true
             ∧ (dictLookup otel k).isSome = true))
         ∧ optsGet cfg.commenterOptions k = true)) := by
  constructor
  · intro hcomm
    rw [execute_sql_eq cfg pv otel orig recording t0 t1 self sql hv hop]
    dsimp only
    rw [origCallSqls_append, origCallSqls_pre, origCallSqls_post,
      executePre_snd]
    simp [hcomm]
  · intro k
    unfold get_commenter_data
    dsimp only
    cases hflag : optsGet cfg.commenterOptions "opentelemetry_values"
    · rw [if_neg (by simp)]
      rw [dictLookup_isSome]
      simp only [hflag, Bool.false_eq_true, false_and, or_false]
      constructor
      · rintro ⟨x, hx, hk⟩
        rcases List.mem_filter.mp hx with ⟨hmem, hopt⟩
        subst hk
        simp only [List.mem_cons, List.not_mem_nil, or_false] at hmem
        rcases hmem with h | h
        · exact ⟨Or.inl (by rw [h]), by rw [h] at hopt ⊢; exact hopt⟩
        · exact ⟨Or.inr (by rw [h]), by rw [h] at hopt ⊢; exact hopt⟩
      · rintro ⟨hk | hk, hopt⟩
        · subst hk
          exact ⟨("db_driver", self.className),
            List.mem_filter.mpr ⟨by simp, hopt⟩, rfl⟩
        · subst hk
          exact ⟨("db_framework", "peewee:" ++ pv),
            List.mem_filter.mpr ⟨by simp, hopt⟩, rfl⟩
    · rw [if_pos rfl]
      rw [dictLookup_isSome]
      simp only [hflag, true_and]
      rw [dictLookup_isSome]
      constructor
      · rintro ⟨x, hx, hk⟩
        rcases List.mem_filter.mp hx with ⟨hmem, hopt⟩
        subst hk
        refine ⟨?_, hopt⟩
        rcases List.mem_append.mp hmem with hbase | hupd
        · rcases List.mem_map.mp hbase with ⟨y, hy, hxy⟩
          simp only [List.mem_cons, List.not_mem_nil, or_false] at hy
          rcases hy with h | h
          · left
            rw [← hxy, h]
          · right; left
            rw [← hxy, h]
        · rcases List.mem_filter.mp hupd with ⟨hyo, -⟩
          exact Or.inr (Or.inr ⟨x, hyo, rfl⟩)
      · rintro ⟨hk | hk | ⟨y, hyo, hyk⟩, hopt⟩
        · subst hk
          refine ⟨("db_driver",
            (dictLookup otel "db_driver").getD self.className), ?_, rfl⟩
          refine List.mem_filter.mpr ⟨List.mem_append.mpr (Or.inl ?_), hopt⟩
          exact List.mem_map.mpr ⟨("db_driver", self.className), by simp, rfl⟩
        · subst hk
          refine ⟨("db_framework",
            (dictLookup otel "db_framework").getD ("peewee:" ++ pv)), ?_, rfl⟩
          refine List.mem_filter.mpr ⟨List.mem_append.mpr (Or.inl ?_), hopt⟩
          exact List.mem_map.mpr
            ⟨("db_framework", "peewee:" ++ pv), by simp, rfl⟩
        · by_cases hbase :
            (dictLookup [("db_driver", self.className),
              ("db_framework", "peewee:" ++ pv)] y.1).isSome = true
          · rcases (dictLookup_isSome _ y.1).mp hbase with ⟨z, hz, hzk⟩
            simp only [List.mem_cons, List.not_mem_nil, or_false] at hz
            rcases hz with h | h
            · refine ⟨("db_driver",
                (dictLookup otel "db_driver").getD self.className), ?_, ?_⟩
              · refine List.mem_filter.mpr
                  ⟨List.mem_append.mpr (Or.inl ?_), ?_⟩
                · exact List.mem_map.mpr
                    ⟨("db_driver", self.className), by simp, rfl⟩
                · rw [show ("db_driver" : String) = k from by
                    rw [← hyk, ← hzk, h]]
                  exact hopt
              · rw [← hyk, ← hzk, h]
            · refine ⟨("db_framework",
                (dictLookup otel "db_framework").getD ("peewee:" ++ pv)),
                  ?_, ?_⟩
              · refine List.mem_filter.mpr
                  ⟨List.mem_append.mpr (Or.inl ?_), ?_⟩
                · exact List.mem_map.mpr
                    ⟨("db_framework", "peewee:" ++ pv), by simp, rfl⟩
                · rw [show ("db_framework" : String) = k from by
                    rw [← hyk, ← hzk, h]]
                  exact hopt
              · rw [← hyk, ← hzk, h]
          · refine ⟨y, ?_, hyk⟩
            refine List.mem_filter.mpr
              ⟨List.mem_append.mpr (Or.inr ?_), hyk ▸ hopt⟩
            refine List.mem_filter.mpr ⟨hyo, ?_⟩
            simp only [Option.isNone_iff_eq_none]
            rw [← Option.not_isSome_iff_eq_none]
            simpa using hbase

/-- Witness for C9 at a concrete input with the commenter disabled: the
original execute receives the caller's exact SQL text. -/
theorem commenter_keys_and_passthrough_witness :
    origCallSqls (execute_sql ⟨false, [], false⟩ "3.17.0" []
        (fun _ => ExecOutcome.ok 0) true 0 0
        ⟨"SqliteDatabase", some ":memory:", ⟨none, none, none⟩,
          DbKind.sqlite⟩ "SELECT 1").1 = ["SELECT 1"] :=
  (commenter_keys_and_passthrough ⟨false, [], false⟩ "3.17.0" []
    (fun _ => ExecOutcome.ok 0) true 0 0
    ⟨"SqliteDatabase", some ":memory:", ⟨none, none, none⟩, DbKind.sqlite⟩
    "SELECT 1" "sqlite" "SELECT :memory:" (by decide) (by decide)).1 rfl

end Peewee
